import Mathlib

/-!
Verification of the NanoCBOR decoder (src/src/decoder.c).

This file gives a shallow embedding of the NanoCBOR decoder core in Lean 4
and proves / refutes the frozen claims about it.

Modelling conventions:
* The source buffer is a `List Nat` of bytes; pointers `cur` / `end` of the C
  `nanocbor_value_t` become `Nat` offsets into that buffer.  Reading `*p`
  becomes `byteAt buf i = buf.getD i 0` (bytes beyond the list model memory
  outside the buffer).
* Every C function that mutates a `nanocbor_value_t *` is modelled as a pure
  function from the old state to `(result, new state, outputs…)`.  Functions
  taking the cursor by `const` pointer (such as `_get_uint64`) return no state.
* Machine integers are `Nat` / `Int` with explicit `% 2^32` where the
  `uint32_t` field `remaining` can wrap.
* `while` loops are modelled by structural recursion on an explicit fuel
  bounded by the number of bytes left in the cursor's window plus one; each
  successful iteration of the corresponding C loop advances `cur` by at least
  one byte while `cur < end`, so the fuel never runs out on the states the
  loops actually reach.
-/

namespace NanoCBOR

/-- Modelled from the spec: the fixed enumeration of error codes (§7) lives in
the header `nanocbor.h`, which is not part of `src/`.  Only the facts that
`NANOCBOR_OK = 0` and the errors are distinct negative values matter. -/
def NANOCBOR_OK : Int := 0

/-- Modelled from the spec: "Overflow" error code (header not in src). -/
def NANOCBOR_ERR_OVERFLOW : Int := -1

/-- Modelled from the spec: "InvalidType" error code (header not in src). -/
def NANOCBOR_ERR_INVALID_TYPE : Int := -2

/-- Modelled from the spec: "EndOfBuffer" error code (header not in src). -/
def NANOCBOR_ERR_END : Int := -3

/-- Modelled from the spec: "RecursionLimitExceeded" error code (header not in src). -/
def NANOCBOR_ERR_RECURSION : Int := -4

/-- Modelled from the spec: "NotFound" error code (header not in src). -/
def NANOCBOR_NOT_FOUND : Int := -5

/-- Modelled from the spec (§6): the major type lives in the high 3 bits of
the item header byte. -/
def NANOCBOR_TYPE_OFFSET : Nat := 5

def NANOCBOR_TYPE_MASK : Nat := 0xE0

def NANOCBOR_VALUE_MASK : Nat := 0x1F

/-- Modelled from the spec (§3/§6): major type numbers 0‥7. -/
def NANOCBOR_TYPE_UINT : Int := 0

def NANOCBOR_TYPE_NINT : Int := 1

def NANOCBOR_TYPE_BSTR : Int := 2

def NANOCBOR_TYPE_TSTR : Int := 3

def NANOCBOR_TYPE_ARR : Int := 4

def NANOCBOR_TYPE_MAP : Int := 5

def NANOCBOR_TYPE_TAG : Int := 6

def NANOCBOR_TYPE_FLOAT : Int := 7

/-- Modelled from the spec (§6): selector values 24/25/26/27 announce
1/2/4/8 trailing big-endian bytes; 31 is the indefinite-length marker. -/
def NANOCBOR_SIZE_BYTE : Nat := 24

def NANOCBOR_SIZE_SHORT : Nat := 25

def NANOCBOR_SIZE_WORD : Nat := 26

def NANOCBOR_SIZE_LONG : Nat := 27

def NANOCBOR_SIZE_INDEFINITE : Nat := 31

/-- Modelled from the spec (§4.4): the string reader bounds the length prefix
by the platform's maximum representable size; a 64-bit platform is assumed,
giving the 8-byte selector bound. -/
def NANOCBOR_SIZE_SIZET : Nat := NANOCBOR_SIZE_LONG

/-- Modelled from the spec (§4.6/§6): the one recognized "decimal fraction"
tag id (header not in src). -/
def NANOCBOR_TAG_DEC_FRAC : Nat := 4

/-- Modelled from the spec (§3): `flags` is a bit-set of
{scoped-to-a-container, that-container-is-indefinite} (header not in src). -/
def NANOCBOR_DECODER_FLAG_CONTAINER : Nat := 1

def NANOCBOR_DECODER_FLAG_INDEFINITE : Nat := 2

/-- Modelled from the spec (§4.7): the fixed maximum recursion budget of the
generic skip (config header not in src; the upstream default is 10). -/
def NANOCBOR_RECURSION_MAX : Nat := 10

/-- Modelled from the spec: simple-value codes for false/true/null within the
float/simple major type (header not in src). -/
def NANOCBOR_SIMPLE_FALSE : Nat := 20

def NANOCBOR_SIMPLE_TRUE : Nat := 21

def NANOCBOR_SIMPLE_NULL : Nat := 22

def NANOCBOR_MASK_FLOAT : Nat := 0xE0

/-- `2^32`, the modulus of the `uint32_t` field `remaining`. -/
def U32 : Nat := 4294967296

/-- Reading one byte of memory: `buf.getD i 0`. Offsets beyond the list model
memory outside the caller's buffer. -/
def byteAt (buf : List Nat) (i : Nat) : Nat := buf.getD i 0

/-- The decoding cursor `nanocbor_value_t`: `cur`/`end` are byte offsets,
`remaining` is the `uint32_t` item counter, `flags` the container bit-set. -/
structure nanocbor_value_t where
  cur : Nat
  end_ : Nat
  remaining : Nat
  flags : Nat
deriving DecidableEq

/-- `nanocbor_decoder_init`.  The C code sets only `cur`, `end` and `flags`;
the `remaining` field is left uninitialized, so the model takes its
indeterminate initial value as the argument `r`. -/
def nanocbor_decoder_init (len r : Nat) : nanocbor_value_t :=
  ⟨0, len, r, 0⟩

/-- `_advance`: moves `cur` forward and decrements the `uint32_t` counter
`remaining` (unconditionally, with wraparound). -/
def _advance (cvalue : nanocbor_value_t) (res : Nat) : nanocbor_value_t :=
  { cvalue with
    cur := cvalue.cur + res
    remaining := (cvalue.remaining + (U32 - 1)) % U32 }

/-- `_advance_if`: advance only when `res > 0`, always returning `res`. -/
def _advance_if (cvalue : nanocbor_value_t) (res : Int) : Int × nanocbor_value_t :=
  if 0 < res then (res, _advance cvalue res.toNat) else (res, cvalue)

/-- `_over_end`: `cur >= end`. -/
def _over_end (it : nanocbor_value_t) : Bool :=
  decide (it.end_ ≤ it.cur)

/-- `nanocbor_in_container` (header accessor, modelled from the spec §3):
the container bit of `flags`. -/
def nanocbor_in_container (it : nanocbor_value_t) : Bool :=
  decide (it.flags &&& NANOCBOR_DECODER_FLAG_CONTAINER ≠ 0)

/-- `nanocbor_container_indefinite` (header accessor, modelled from the spec
§3): the indefinite bit of `flags`. -/
def nanocbor_container_indefinite (it : nanocbor_value_t) : Bool :=
  decide (it.flags &&& NANOCBOR_DECODER_FLAG_INDEFINITE ≠ 0)

/-- `_value_match_exact`. -/
def _value_match_exact (buf : List Nat) (cvalue : nanocbor_value_t) (val : Nat) :
    Int × nanocbor_value_t :=
  if _over_end cvalue then (NANOCBOR_ERR_END, cvalue)
  else if byteAt buf cvalue.cur = val then (NANOCBOR_OK, _advance cvalue 1)
  else (NANOCBOR_ERR_INVALID_TYPE, cvalue)

/-- `nanocbor_at_end`. -/
def nanocbor_at_end (buf : List Nat) (it : nanocbor_value_t) : Bool :=
  _over_end it ||
    (nanocbor_container_indefinite it &&
      decide (byteAt buf it.cur =
        (NANOCBOR_TYPE_FLOAT.toNat <<< NANOCBOR_TYPE_OFFSET) ||| NANOCBOR_VALUE_MASK)) ||
    (!nanocbor_container_indefinite it && nanocbor_in_container it &&
      decide (it.remaining = 0))

/-- `nanocbor_get_type`. -/
def nanocbor_get_type (buf : List Nat) (value : nanocbor_value_t) : Int :=
  if nanocbor_at_end buf value then NANOCBOR_ERR_END
  else (((byteAt buf value.cur &&& NANOCBOR_TYPE_MASK) >>> NANOCBOR_TYPE_OFFSET : Nat) : Int)

/-- The big-endian value of `n` bytes starting at offset `i`
(the `memcpy` + `NANOCBOR_BE64TOH_FUNC` pair of `_get_uint64`). -/
def beBytesToNat (buf : List Nat) (i n : Nat) : Nat :=
  (List.range n).foldl (fun acc k => acc * 256 + byteAt buf (i + k)) 0

/-- `_get_uint64`.  Takes the cursor by `const` pointer in C, so the model
returns only `(status-or-bytes-consumed, decoded value)`; the cursor is
untouched in every case.  On error paths the C code does not write `*value`;
every call site zero-initializes the destination, which the model reflects by
returning `0` there. -/
def _get_uint64 (buf : List Nat) (cvalue : nanocbor_value_t) (max : Nat) (type : Int) :
    Int × Nat :=
  let ctype := nanocbor_get_type buf cvalue
  if ctype < 0 then (ctype, 0)
  else if type ≠ ctype then (NANOCBOR_ERR_INVALID_TYPE, 0)
  else
    let bytelen := byteAt buf cvalue.cur &&& NANOCBOR_VALUE_MASK
    if bytelen < NANOCBOR_SIZE_BYTE then (1, bytelen)
    else if max < bytelen then (NANOCBOR_ERR_OVERFLOW, 0)
    else
      let bytes := 1 <<< (bytelen - NANOCBOR_SIZE_BYTE)
      if cvalue.end_ ≤ cvalue.cur + bytes then (NANOCBOR_ERR_END, 0)
      else ((1 + bytes : Nat), beBytesToNat buf (cvalue.cur + 1) bytes)

/-- Header-plus-trailing byte count of the item whose header byte sits at
offset `i`: 1 for selectors below 24, `1 + 2^(sel-24)` otherwise. -/
def _item_size (buf : List Nat) (i : Nat) : Nat :=
  let bytelen := byteAt buf i &&& NANOCBOR_VALUE_MASK
  if bytelen < NANOCBOR_SIZE_BYTE then 1 else 1 + (1 <<< (bytelen - NANOCBOR_SIZE_BYTE))

/-- `_get_and_advance_uint8` (the `(uint8_t)tmp` store is the `% 256`). -/
def _get_and_advance_uint8 (buf : List Nat) (cvalue : nanocbor_value_t) (type : Int) :
    Int × nanocbor_value_t × Nat :=
  let r := _get_uint64 buf cvalue NANOCBOR_SIZE_BYTE type
  let a := _advance_if cvalue r.1
  (a.1, a.2, r.2 % 256)

/-- `_get_and_advance_uint16`. -/
def _get_and_advance_uint16 (buf : List Nat) (cvalue : nanocbor_value_t) (type : Int) :
    Int × nanocbor_value_t × Nat :=
  let r := _get_uint64 buf cvalue NANOCBOR_SIZE_SHORT type
  let a := _advance_if cvalue r.1
  (a.1, a.2, r.2 % 65536)

/-- `_get_and_advance_uint32`. -/
def _get_and_advance_uint32 (buf : List Nat) (cvalue : nanocbor_value_t) (type : Int) :
    Int × nanocbor_value_t × Nat :=
  let r := _get_uint64 buf cvalue NANOCBOR_SIZE_WORD type
  let a := _advance_if cvalue r.1
  (a.1, a.2, r.2 % U32)

def nanocbor_get_uint8 (buf : List Nat) (cvalue : nanocbor_value_t) :
    Int × nanocbor_value_t × Nat :=
  _get_and_advance_uint8 buf cvalue NANOCBOR_TYPE_UINT

def nanocbor_get_uint16 (buf : List Nat) (cvalue : nanocbor_value_t) :
    Int × nanocbor_value_t × Nat :=
  _get_and_advance_uint16 buf cvalue NANOCBOR_TYPE_UINT

def nanocbor_get_uint32 (buf : List Nat) (cvalue : nanocbor_value_t) :
    Int × nanocbor_value_t × Nat :=
  _get_and_advance_uint32 buf cvalue NANOCBOR_TYPE_UINT

/-- `_get_and_advance_int32`.  The C casts `(-(int32_t)intermediate) - 1` /
`(int32_t)intermediate` are written wrap-free here: the stored value is only
meaningful when the function succeeds, which requires
`intermediate ≤ bound ≤ INT32_MAX`, where the casts are exact.  On failure the
C code leaves `*value` untouched (the callers zero it first) or stores a dead
value; the model returns the same expression it computes on success, and `0`
on the paths where C never writes. -/
def _get_and_advance_int32 (buf : List Nat) (cvalue : nanocbor_value_t)
    (max : Nat) (bound : Nat) : Int × nanocbor_value_t × Int :=
  let type := nanocbor_get_type buf cvalue
  if type < 0 then (type, cvalue, 0)
  else if type = NANOCBOR_TYPE_NINT ∨ type = NANOCBOR_TYPE_UINT then
    let r := _get_uint64 buf cvalue max type
    let intermediate := r.2
    let res := if bound < intermediate then NANOCBOR_ERR_OVERFLOW else r.1
    let value : Int :=
      if type = NANOCBOR_TYPE_NINT then -(intermediate : Int) - 1 else (intermediate : Int)
    let a := _advance_if cvalue res
    (a.1, a.2, value)
  else (NANOCBOR_ERR_INVALID_TYPE, cvalue, 0)

/-- The `(int8_t)` store of `nanocbor_get_int8`. -/
def int8cast (x : Int) : Int := (x + 128) % 256 - 128

/-- The `(int16_t)` store of `nanocbor_get_int16`. -/
def int16cast (x : Int) : Int := (x + 32768) % 65536 - 32768

def nanocbor_get_int8 (buf : List Nat) (cvalue : nanocbor_value_t) :
    Int × nanocbor_value_t × Int :=
  let r := _get_and_advance_int32 buf cvalue NANOCBOR_SIZE_BYTE 127
  (r.1, r.2.1, int8cast r.2.2)

def nanocbor_get_int16 (buf : List Nat) (cvalue : nanocbor_value_t) :
    Int × nanocbor_value_t × Int :=
  let r := _get_and_advance_int32 buf cvalue NANOCBOR_SIZE_SHORT 32767
  (r.1, r.2.1, int16cast r.2.2)

def nanocbor_get_int32 (buf : List Nat) (cvalue : nanocbor_value_t) :
    Int × nanocbor_value_t × Int :=
  _get_and_advance_int32 buf cvalue NANOCBOR_SIZE_WORD 2147483647

/-- `nanocbor_get_tag`: on success advances `cur` directly (without
`_advance`, so `remaining` is untouched) and returns `NANOCBOR_OK`. -/
def nanocbor_get_tag (buf : List Nat) (cvalue : nanocbor_value_t) :
    Int × nanocbor_value_t × Nat :=
  let r := _get_uint64 buf cvalue NANOCBOR_SIZE_WORD NANOCBOR_TYPE_TAG
  if 0 ≤ r.1 then (NANOCBOR_OK, { cvalue with cur := cvalue.cur + r.1.toNat }, r.2)
  else (r.1, cvalue, r.2)

/-- `_get_str`.  Returns `(res, cursor, view offset, view length)`.  The C
bounds check `end - cur < 0 || (size_t)(end - cur) < *len` is on pointer
difference, so the model tests `end < cur ∨ end - cur < len`.  On paths where
C never writes `*buf` the view offset is returned as `0`. -/
def _get_str (buf : List Nat) (cvalue : nanocbor_value_t) (type : Int) :
    Int × nanocbor_value_t × Nat × Nat :=
  let r := _get_uint64 buf cvalue NANOCBOR_SIZE_SIZET type
  let len := r.2
  if cvalue.end_ < cvalue.cur ∨ cvalue.end_ - cvalue.cur < len then
    (NANOCBOR_ERR_END, cvalue, 0, len)
  else if 0 ≤ r.1 then
    (NANOCBOR_OK, _advance cvalue (r.1.toNat + len), cvalue.cur + r.1.toNat, len)
  else (r.1, cvalue, 0, len)

def nanocbor_get_bstr (buf : List Nat) (cvalue : nanocbor_value_t) :
    Int × nanocbor_value_t × Nat × Nat :=
  _get_str buf cvalue NANOCBOR_TYPE_BSTR

def nanocbor_get_tstr (buf : List Nat) (cvalue : nanocbor_value_t) :
    Int × nanocbor_value_t × Nat × Nat :=
  _get_str buf cvalue NANOCBOR_TYPE_TSTR

def nanocbor_get_null (buf : List Nat) (cvalue : nanocbor_value_t) :
    Int × nanocbor_value_t :=
  _value_match_exact buf cvalue (NANOCBOR_MASK_FLOAT ||| NANOCBOR_SIMPLE_NULL)

/-- `nanocbor_get_bool`: returns `(res, cursor, value)`. -/
def nanocbor_get_bool (buf : List Nat) (cvalue : nanocbor_value_t) :
    Int × nanocbor_value_t × Bool :=
  let r := _value_match_exact buf cvalue (NANOCBOR_MASK_FLOAT ||| NANOCBOR_SIMPLE_FALSE)
  if r.1 < 0 then
    let r2 := _value_match_exact buf cvalue (NANOCBOR_MASK_FLOAT ||| NANOCBOR_SIMPLE_TRUE)
    (r2.1, r2.2, true)
  else (r.1, r.2, false)

/-- `_enter_container`.  The C code writes `container->end` and
`container->remaining` first and fills `cur`/`flags` only on the success
paths; on the failure path those two fields stay uninitialized, which the
model represents as `it.cur` / `0`. -/
def _enter_container (buf : List Nat) (it : nanocbor_value_t) (type : Int) :
    Int × nanocbor_value_t :=
  let value_match := (type.toNat <<< NANOCBOR_TYPE_OFFSET) ||| NANOCBOR_SIZE_INDEFINITE
  if !_over_end it ∧ byteAt buf it.cur = value_match then
    (NANOCBOR_OK,
      ⟨it.cur + 1, it.end_, 0,
        NANOCBOR_DECODER_FLAG_INDEFINITE ||| NANOCBOR_DECODER_FLAG_CONTAINER⟩)
  else
    let r := _get_uint64 buf it NANOCBOR_SIZE_WORD type
    if r.1 < 0 then (r.1, ⟨it.cur, it.end_, r.2, 0⟩)
    else (NANOCBOR_OK, ⟨it.cur + r.1.toNat, it.end_, r.2, NANOCBOR_DECODER_FLAG_CONTAINER⟩)

def nanocbor_enter_array (buf : List Nat) (it : nanocbor_value_t) :
    Int × nanocbor_value_t :=
  _enter_container buf it NANOCBOR_TYPE_ARR

/-- `nanocbor_enter_map`: doubles the decoded pair count, rejecting counts
above `UINT32_MAX / 2` with Overflow. -/
def nanocbor_enter_map (buf : List Nat) (it : nanocbor_value_t) :
    Int × nanocbor_value_t :=
  let r := _enter_container buf it NANOCBOR_TYPE_MAP
  if 2147483647 < r.2.remaining then (NANOCBOR_ERR_OVERFLOW, r.2)
  else (r.1, { r.2 with remaining := r.2.remaining * 2 })

/-- `nanocbor_leave_container`. -/
def nanocbor_leave_container (it container : nanocbor_value_t) : nanocbor_value_t :=
  let it1 := if it.remaining ≠ 0 then { it with remaining := it.remaining - 1 } else it
  if nanocbor_container_indefinite container then { it1 with cur := container.cur + 1 }
  else { it1 with cur := container.cur }

/-- `_skip_simple`. -/
def _skip_simple (buf : List Nat) (it : nanocbor_value_t) : Int × nanocbor_value_t :=
  let r := _get_uint64 buf it NANOCBOR_SIZE_LONG (nanocbor_get_type buf it)
  _advance_if it r.1

/-- The `while (!nanocbor_at_end(&recurse)) { res = skip-one; … }` loop of
`_skip_limited`, with explicit fuel.  `skipOne` is the recursive call at the
reduced budget; `res` threads the C `res` variable. -/
def _skip_loop (buf : List Nat) (skipOne : nanocbor_value_t → Int × nanocbor_value_t) :
    Nat → nanocbor_value_t → Int → Int × nanocbor_value_t
  | 0, recurse, res => (res, recurse)
  | fuel + 1, recurse, res =>
    if nanocbor_at_end buf recurse then (res, recurse)
    else
      let r := skipOne recurse
      if r.1 < 0 then (r.1, r.2)
      else _skip_loop buf skipOne fuel r.2 r.1

/-- `_skip_limited`. -/
def _skip_limited (buf : List Nat) : Nat → nanocbor_value_t → Int × nanocbor_value_t
  | 0, it => (NANOCBOR_ERR_RECURSION, it)
  | limit + 1, it =>
    let type := nanocbor_get_type buf it
    let r :=
      if type = NANOCBOR_TYPE_BSTR ∨ type = NANOCBOR_TYPE_TSTR then
        let s := _get_str buf it type
        (s.1, s.2.1)
      else if type = NANOCBOR_TYPE_ARR ∨ type = NANOCBOR_TYPE_MAP then
        let e :=
          if type = NANOCBOR_TYPE_MAP then nanocbor_enter_map buf it
          else nanocbor_enter_array buf it
        if e.1 = NANOCBOR_OK then
          let l := _skip_loop buf (fun w => _skip_limited buf limit w)
            (e.2.end_ + 1 - e.2.cur) e.2 NANOCBOR_OK
          (l.1, nanocbor_leave_container it l.2)
        else (e.1, it)
      else if 0 ≤ type then _skip_simple buf it
      else (type, it)
    (if r.1 < 0 then r.1 else NANOCBOR_OK, r.2)

def nanocbor_skip (buf : List Nat) (it : nanocbor_value_t) : Int × nanocbor_value_t :=
  _skip_limited buf NANOCBOR_RECURSION_MAX it

/-- `nanocbor_skip_simple`. -/
def nanocbor_skip_simple (buf : List Nat) (it : nanocbor_value_t) :
    Int × nanocbor_value_t :=
  _skip_simple buf it

/-- The bytes of the view `(off, n)` into `buf` (the `strncmp` operand). -/
def listSlice (buf : List Nat) (off n : Nat) : List Nat :=
  (buf.drop off).take n

/-- The `while (!nanocbor_at_end(value)) { … }` loop of
`nanocbor_get_key_tstr`, with explicit fuel; `res` threads the C `res`. -/
def _key_loop (buf key : List Nat) :
    Nat → nanocbor_value_t → Int → Int × nanocbor_value_t
  | 0, value, res => (res, value)
  | fuel + 1, value, res =>
    if nanocbor_at_end buf value then (res, value)
    else
      let r := nanocbor_get_tstr buf value
      if r.1 < 0 then (r.1, r.2.1)
      else if r.2.2.2 = key.length ∧ listSlice buf r.2.2.1 key.length = key then
        (NANOCBOR_OK, r.2.1)
      else
        let s := nanocbor_skip buf r.2.1
        if s.1 < 0 then (s.1, s.2)
        else _key_loop buf key fuel s.2 s.1

/-- `nanocbor_get_key_tstr`: the requested key is a byte list (the C `char *`
with `strlen` length).  The caller's `start` cursor is taken by value; the
returned cursor is the `*value` output. -/
def nanocbor_get_key_tstr (buf : List Nat) (start : nanocbor_value_t) (key : List Nat) :
    Int × nanocbor_value_t :=
  _key_loop buf key (start.end_ + 1 - start.cur) start NANOCBOR_NOT_FOUND

/-- `nanocbor_get_decimal_frac`: returns `(res, cursor, e, m)`. -/
def nanocbor_get_decimal_frac (buf : List Nat) (cvalue : nanocbor_value_t) :
    Int × nanocbor_value_t × Int × Int :=
  let t := nanocbor_get_tag buf cvalue
  if t.1 = NANOCBOR_OK then
    if t.2.2 = NANOCBOR_TAG_DEC_FRAC then
      let a := nanocbor_enter_array buf t.2.1
      if a.1 = NANOCBOR_OK then
        let e := nanocbor_get_int32 buf a.2
        if 0 ≤ e.1 then
          let m := nanocbor_get_int32 buf e.2.1
          if 0 ≤ m.1 then
            (NANOCBOR_OK, nanocbor_leave_container t.2.1 m.2.1, e.2.2, m.2.2)
          else (m.1, nanocbor_leave_container t.2.1 m.2.1, e.2.2, m.2.2)
        else (e.1, nanocbor_leave_container t.2.1 e.2.1, e.2.2, 0)
      else (NANOCBOR_NOT_FOUND, t.2.1, 0, 0)
    else (NANOCBOR_NOT_FOUND, t.2.1, 0, 0)
  else (NANOCBOR_NOT_FOUND, cvalue, 0, 0)

/-! ## Basic lemmas -/

theorem _item_size_pos (buf : List Nat) (i : Nat) : 0 < _item_size buf i := by
  simp only [_item_size]
  split
  · omega
  · exact Nat.lt_of_lt_of_le Nat.zero_lt_one (Nat.le_add_right 1 _)

/-- `_get_uint64` never reports a non-negative result other than the
header-plus-trailing byte count of the item at `cur`. -/
theorem _get_uint64_nonneg (buf : List Nat) (v : nanocbor_value_t) (max : Nat) (t : Int)
    (h : 0 ≤ (_get_uint64 buf v max t).1) :
    (_get_uint64 buf v max t).1 = (_item_size buf v.cur : Int) := by
  unfold _get_uint64 _item_size at *
  simp only [NANOCBOR_ERR_INVALID_TYPE, NANOCBOR_ERR_OVERFLOW, NANOCBOR_ERR_END] at *
  split_ifs at h ⊢ <;> simp_all <;> omega

theorem _advance_if_fst (v : nanocbor_value_t) (r : Int) : (_advance_if v r).1 = r := by
  unfold _advance_if
  split <;> rfl

theorem _advance_if_neg (v : nanocbor_value_t) (r : Int) (h : r ≤ 0) :
    (_advance_if v r).2 = v := by
  unfold _advance_if
  rw [if_neg (by omega)]

theorem _advance_if_pos (v : nanocbor_value_t) (r : Int) (h : 0 < r) :
    (_advance_if v r).2 = _advance v r.toNat := by
  unfold _advance_if
  rw [if_pos h]

theorem _advance_cur (v : nanocbor_value_t) (n : Nat) : (_advance v n).cur = v.cur + n := rfl

/-- Shape of `_get_uint64` followed by `_advance_if`, shared by all typed
scalar readers: on error the cursor is untouched, on success the result is the
item's header-plus-trailing size and `cur` advances by exactly that much. -/
theorem _uadv_spec (buf : List Nat) (v : nanocbor_value_t) (max : Nat) (t : Int) :
    ((_advance_if v (_get_uint64 buf v max t).1).1 < 0 →
      (_advance_if v (_get_uint64 buf v max t).1).2 = v) ∧
    (0 ≤ (_advance_if v (_get_uint64 buf v max t).1).1 →
      (_advance_if v (_get_uint64 buf v max t).1).1 = (_item_size buf v.cur : Int) ∧
      (_advance_if v (_get_uint64 buf v max t).1).2.cur = v.cur + _item_size buf v.cur) := by
  rw [_advance_if_fst]
  constructor
  · intro h
    exact _advance_if_neg _ _ (le_of_lt h)
  · intro h
    have hs := _get_uint64_nonneg buf v max t h
    have hpos : 0 < (_get_uint64 buf v max t).1 := by
      rw [hs]
      exact_mod_cast _item_size_pos buf v.cur
    refine ⟨hs, ?_⟩
    rw [_advance_if_pos _ _ hpos, _advance_cur, hs]
    simp

/-- Shape of `_get_and_advance_int32`: untouched cursor on error, exact
advancement by the item size on success. -/
theorem _iadv_spec (buf : List Nat) (v : nanocbor_value_t) (max bound : Nat) :
    ((_get_and_advance_int32 buf v max bound).1 < 0 →
      (_get_and_advance_int32 buf v max bound).2.1 = v) ∧
    (0 ≤ (_get_and_advance_int32 buf v max bound).1 →
      (_get_and_advance_int32 buf v max bound).1 = (_item_size buf v.cur : Int) ∧
      (_get_and_advance_int32 buf v max bound).2.1.cur = v.cur + _item_size buf v.cur) := by
  unfold _get_and_advance_int32
  dsimp only
  split
  · exact ⟨fun _ => rfl, fun h2 => absurd h2 (by omega)⟩
  · split
    · by_cases hb : bound < (_get_uint64 buf v max (nanocbor_get_type buf v)).2
      · simp only [if_pos hb]
        refine ⟨fun _ => ?_, fun h2 => absurd h2 (by rw [_advance_if_fst]; decide)⟩
        show (_advance_if v NANOCBOR_ERR_OVERFLOW).2 = v
        exact _advance_if_neg _ _ (by simp [NANOCBOR_ERR_OVERFLOW])
      · simp only [if_neg hb]
        constructor
        · intro h
          show (_advance_if v (_get_uint64 buf v max (nanocbor_get_type buf v)).1).2 = v
          rw [_advance_if_fst] at h
          exact _advance_if_neg _ _ (le_of_lt h)
        · intro h
          rw [_advance_if_fst] at h
          have hs := _get_uint64_nonneg buf v max (nanocbor_get_type buf v) h
          have hpos : 0 < (_get_uint64 buf v max (nanocbor_get_type buf v)).1 := by
            rw [hs]
            exact_mod_cast _item_size_pos buf v.cur
          constructor
          · show (_advance_if v (_get_uint64 buf v max (nanocbor_get_type buf v)).1).1 = _
            rw [_advance_if_fst]
            exact hs
          · show (_advance_if v (_get_uint64 buf v max (nanocbor_get_type buf v)).1).2.cur = _
            rw [_advance_if_pos _ _ hpos, _advance_cur, hs]
            simp
    · exact ⟨fun _ => rfl, fun h2 => absurd h2 (by simp [NANOCBOR_ERR_INVALID_TYPE])⟩

/-- Shape of `nanocbor_get_tag`: untouched cursor on error; on success the
result is `NANOCBOR_OK`, only `cur` changes, and it moves by exactly the tag
item's header-plus-trailing size. -/
theorem _get_tag_spec (buf : List Nat) (v : nanocbor_value_t) :
    ((nanocbor_get_tag buf v).1 < 0 → (nanocbor_get_tag buf v).2.1 = v) ∧
    (0 ≤ (nanocbor_get_tag buf v).1 →
      (nanocbor_get_tag buf v).1 = NANOCBOR_OK ∧
      (nanocbor_get_tag buf v).2.1.cur = v.cur + _item_size buf v.cur ∧
      (nanocbor_get_tag buf v).2.1.remaining = v.remaining ∧
      (nanocbor_get_tag buf v).2.1.end_ = v.end_ ∧
      (nanocbor_get_tag buf v).2.1.flags = v.flags) := by
  unfold nanocbor_get_tag
  dsimp only
  split
  · rename_i h
    have hs := _get_uint64_nonneg buf v NANOCBOR_SIZE_WORD NANOCBOR_TYPE_TAG h
    refine ⟨fun hc => absurd hc (by simp [NANOCBOR_OK]), fun _ => ⟨rfl, ?_, rfl, rfl, rfl⟩⟩
    simp [hs]
  · rename_i h
    exact ⟨fun _ => rfl, fun h2 => absurd h2 (by omega)⟩

/-- Shape of `_get_str`: untouched cursor on error; on success the result is
`NANOCBOR_OK` and `cur` moves by the header size plus the returned view
length. -/
theorem _get_str_spec (buf : List Nat) (v : nanocbor_value_t) (t : Int) :
    ((_get_str buf v t).1 < 0 → (_get_str buf v t).2.1 = v) ∧
    (0 ≤ (_get_str buf v t).1 →
      (_get_str buf v t).1 = NANOCBOR_OK ∧
      (_get_str buf v t).2.1.cur =
        v.cur + _item_size buf v.cur + (_get_str buf v t).2.2.2) := by
  unfold _get_str
  dsimp only
  split
  · exact ⟨fun _ => rfl, fun h2 => absurd h2 (by simp [NANOCBOR_ERR_END])⟩
  · split
    · rename_i h
      have hs := _get_uint64_nonneg buf v NANOCBOR_SIZE_SIZET t h
      refine ⟨fun hc => absurd hc (by simp [NANOCBOR_OK]), fun _ => ⟨rfl, ?_⟩⟩
      simp [_advance_cur, hs]
      omega
    · rename_i h
      exact ⟨fun _ => rfl, fun h2 => absurd h2 (by omega)⟩

/-- Shape of `_value_match_exact`: untouched cursor on mismatch or end; on
success the result is `NANOCBOR_OK` and `cur` moves by one byte. -/
theorem _value_match_exact_spec (buf : List Nat) (v : nanocbor_value_t) (val : Nat) :
    ((_value_match_exact buf v val).1 < 0 → (_value_match_exact buf v val).2 = v) ∧
    (0 ≤ (_value_match_exact buf v val).1 →
      (_value_match_exact buf v val).1 = NANOCBOR_OK ∧
      (_value_match_exact buf v val).2.cur = v.cur + 1) := by
  unfold _value_match_exact
  split
  · exact ⟨fun _ => rfl, fun h2 => absurd h2 (by simp [NANOCBOR_ERR_END])⟩
  · split
    · exact ⟨fun hc => absurd hc (by simp [NANOCBOR_OK]), fun _ => ⟨rfl, rfl⟩⟩
    · exact ⟨fun _ => rfl, fun h2 => absurd h2 (by simp [NANOCBOR_ERR_INVALID_TYPE])⟩

/-- Shape of `nanocbor_get_bool`: untouched cursor on failure; on success the
result is `NANOCBOR_OK` and `cur` moves by one byte. -/
theorem _get_bool_spec (buf : List Nat) (v : nanocbor_value_t) :
    ((nanocbor_get_bool buf v).1 < 0 → (nanocbor_get_bool buf v).2.1 = v) ∧
    (0 ≤ (nanocbor_get_bool buf v).1 →
      (nanocbor_get_bool buf v).1 = NANOCBOR_OK ∧
      (nanocbor_get_bool buf v).2.1.cur = v.cur + 1) := by
  unfold nanocbor_get_bool
  dsimp only
  split
  · exact ⟨fun h => (_value_match_exact_spec buf v _).1 h,
      fun h => (_value_match_exact_spec buf v _).2 h⟩
  · exact ⟨fun h => (_value_match_exact_spec buf v _).1 h,
      fun h => (_value_match_exact_spec buf v _).2 h⟩

/-! ## The claims -/

/-- C5: for every buffer and every cursor, each scalar read (unsigned and
signed 8/16/32-bit) either returns success (a non-negative byte count) and
advances `cur` by exactly the header-plus-trailing byte count of the item
just read, or returns a negative error code and leaves the cursor unchanged. -/
theorem claim_C5 (buf : List Nat) (v : nanocbor_value_t) :
    (((nanocbor_get_uint8 buf v).1 < 0 → (nanocbor_get_uint8 buf v).2.1 = v) ∧
      (0 ≤ (nanocbor_get_uint8 buf v).1 →
        (nanocbor_get_uint8 buf v).1 = (_item_size buf v.cur : Int) ∧
        (nanocbor_get_uint8 buf v).2.1.cur = v.cur + _item_size buf v.cur)) ∧
    (((nanocbor_get_uint16 buf v).1 < 0 → (nanocbor_get_uint16 buf v).2.1 = v) ∧
      (0 ≤ (nanocbor_get_uint16 buf v).1 →
        (nanocbor_get_uint16 buf v).1 = (_item_size buf v.cur : Int) ∧
        (nanocbor_get_uint16 buf v).2.1.cur = v.cur + _item_size buf v.cur)) ∧
    (((nanocbor_get_uint32 buf v).1 < 0 → (nanocbor_get_uint32 buf v).2.1 = v) ∧
      (0 ≤ (nanocbor_get_uint32 buf v).1 →
        (nanocbor_get_uint32 buf v).1 = (_item_size buf v.cur : Int) ∧
        (nanocbor_get_uint32 buf v).2.1.cur = v.cur + _item_size buf v.cur)) ∧
    (((nanocbor_get_int8 buf v).1 < 0 → (nanocbor_get_int8 buf v).2.1 = v) ∧
      (0 ≤ (nanocbor_get_int8 buf v).1 →
        (nanocbor_get_int8 buf v).1 = (_item_size buf v.cur : Int) ∧
        (nanocbor_get_int8 buf v).2.1.cur = v.cur + _item_size buf v.cur)) ∧
    (((nanocbor_get_int16 buf v).1 < 0 → (nanocbor_get_int16 buf v).2.1 = v) ∧
      (0 ≤ (nanocbor_get_int16 buf v).1 →
        (nanocbor_get_int16 buf v).1 = (_item_size buf v.cur : Int) ∧
        (nanocbor_get_int16 buf v).2.1.cur = v.cur + _item_size buf v.cur)) ∧
    (((nanocbor_get_int32 buf v).1 < 0 → (nanocbor_get_int32 buf v).2.1 = v) ∧
      (0 ≤ (nanocbor_get_int32 buf v).1 →
        (nanocbor_get_int32 buf v).1 = (_item_size buf v.cur : Int) ∧
        (nanocbor_get_int32 buf v).2.1.cur = v.cur + _item_size buf v.cur)) :=
  ⟨_uadv_spec buf v NANOCBOR_SIZE_BYTE NANOCBOR_TYPE_UINT,
   _uadv_spec buf v NANOCBOR_SIZE_SHORT NANOCBOR_TYPE_UINT,
   _uadv_spec buf v NANOCBOR_SIZE_WORD NANOCBOR_TYPE_UINT,
   _iadv_spec buf v NANOCBOR_SIZE_BYTE 127,
   _iadv_spec buf v NANOCBOR_SIZE_SHORT 32767,
   _iadv_spec buf v NANOCBOR_SIZE_WORD 2147483647⟩

/-- Witness for C5 at the spec's concrete scenario `[0x01]`: the unsigned-8
read consumes exactly one byte. -/
theorem claim_C5_witness :
    (nanocbor_get_uint8 [0x01] (nanocbor_decoder_init 1 0)).1 =
      (_item_size [0x01] 0 : Int) ∧
    (nanocbor_get_uint8 [0x01] (nanocbor_decoder_init 1 0)).2.1.cur =
      0 + _item_size [0x01] 0 :=
  (claim_C5 [0x01] (nanocbor_decoder_init 1 0)).1.2 (by decide)

/-- C4 counterexample: two public read operations return a negative error
code yet leave the caller's cursor moved.  `nanocbor_get_decimal_frac` on
`[0xC5, 0x80]` (tag 5, then an empty array) consumes the tag, then returns
NotFound with the cursor one byte further.  `nanocbor_skip` on `[0x81, 0x1C]`
(array of one item whose header byte has the reserved selector 28) enters the
container, fails with Overflow inside, and still writes the child position
back, leaving the cursor one byte further. -/
theorem claim_C4_counterexample :
    ((nanocbor_get_decimal_frac [0xC5, 0x80] (nanocbor_decoder_init 2 0)).1 =
        NANOCBOR_NOT_FOUND ∧
      (nanocbor_get_decimal_frac [0xC5, 0x80] (nanocbor_decoder_init 2 0)).2.1.cur = 1 ∧
      (nanocbor_decoder_init 2 0).cur = 0) ∧
    ((nanocbor_skip [0x81, 0x1C] (nanocbor_decoder_init 2 0)).1 =
        NANOCBOR_ERR_OVERFLOW ∧
      (nanocbor_skip [0x81, 0x1C] (nanocbor_decoder_init 2 0)).2.cur = 1 ∧
      (nanocbor_decoder_init 2 0).cur = 0) := by
  decide

/-- C4 (amended): every single-item read operation of the public interface
(the six scalar reads, tag, byte-string, text-string, null and bool) is
atomic — on a negative error code the caller's cursor is left exactly as it
was, and on success it is advanced past the consumed item (header plus
trailing bytes, plus the payload length for strings, one byte for
null/bool).  The composite operations (`nanocbor_get_decimal_frac`,
`nanocbor_skip`) are excluded: they can leave the cursor advanced even when
returning NotFound or an error (see the counterexample). -/
theorem claim_C4 (buf : List Nat) (v : nanocbor_value_t) :
    (((nanocbor_get_uint8 buf v).1 < 0 → (nanocbor_get_uint8 buf v).2.1 = v) ∧
      (0 ≤ (nanocbor_get_uint8 buf v).1 →
        (nanocbor_get_uint8 buf v).2.1.cur = v.cur + _item_size buf v.cur)) ∧
    (((nanocbor_get_uint16 buf v).1 < 0 → (nanocbor_get_uint16 buf v).2.1 = v) ∧
      (0 ≤ (nanocbor_get_uint16 buf v).1 →
        (nanocbor_get_uint16 buf v).2.1.cur = v.cur + _item_size buf v.cur)) ∧
    (((nanocbor_get_uint32 buf v).1 < 0 → (nanocbor_get_uint32 buf v).2.1 = v) ∧
      (0 ≤ (nanocbor_get_uint32 buf v).1 →
        (nanocbor_get_uint32 buf v).2.1.cur = v.cur + _item_size buf v.cur)) ∧
    (((nanocbor_get_int8 buf v).1 < 0 → (nanocbor_get_int8 buf v).2.1 = v) ∧
      (0 ≤ (nanocbor_get_int8 buf v).1 →
        (nanocbor_get_int8 buf v).2.1.cur = v.cur + _item_size buf v.cur)) ∧
    (((nanocbor_get_int16 buf v).1 < 0 → (nanocbor_get_int16 buf v).2.1 = v) ∧
      (0 ≤ (nanocbor_get_int16 buf v).1 →
        (nanocbor_get_int16 buf v).2.1.cur = v.cur + _item_size buf v.cur)) ∧
    (((nanocbor_get_int32 buf v).1 < 0 → (nanocbor_get_int32 buf v).2.1 = v) ∧
      (0 ≤ (nanocbor_get_int32 buf v).1 →
        (nanocbor_get_int32 buf v).2.1.cur = v.cur + _item_size buf v.cur)) ∧
    (((nanocbor_get_tag buf v).1 < 0 → (nanocbor_get_tag buf v).2.1 = v) ∧
      (0 ≤ (nanocbor_get_tag buf v).1 →
        (nanocbor_get_tag buf v).2.1.cur = v.cur + _item_size buf v.cur)) ∧
    (((nanocbor_get_bstr buf v).1 < 0 → (nanocbor_get_bstr buf v).2.1 = v) ∧
      (0 ≤ (nanocbor_get_bstr buf v).1 →
        (nanocbor_get_bstr buf v).2.1.cur =
          v.cur + _item_size buf v.cur + (nanocbor_get_bstr buf v).2.2.2)) ∧
    (((nanocbor_get_tstr buf v).1 < 0 → (nanocbor_get_tstr buf v).2.1 = v) ∧
      (0 ≤ (nanocbor_get_tstr buf v).1 →
        (nanocbor_get_tstr buf v).2.1.cur =
          v.cur + _item_size buf v.cur + (nanocbor_get_tstr buf v).2.2.2)) ∧
    (((nanocbor_get_null buf v).1 < 0 → (nanocbor_get_null buf v).2 = v) ∧
      (0 ≤ (nanocbor_get_null buf v).1 →
        (nanocbor_get_null buf v).2.cur = v.cur + 1)) ∧
    (((nanocbor_get_bool buf v).1 < 0 → (nanocbor_get_bool buf v).2.1 = v) ∧
      (0 ≤ (nanocbor_get_bool buf v).1 →
        (nanocbor_get_bool buf v).2.1.cur = v.cur + 1)) :=
  ⟨⟨(_uadv_spec buf v NANOCBOR_SIZE_BYTE NANOCBOR_TYPE_UINT).1,
     fun h => ((_uadv_spec buf v NANOCBOR_SIZE_BYTE NANOCBOR_TYPE_UINT).2 h).2⟩,
   ⟨(_uadv_spec buf v NANOCBOR_SIZE_SHORT NANOCBOR_TYPE_UINT).1,
     fun h => ((_uadv_spec buf v NANOCBOR_SIZE_SHORT NANOCBOR_TYPE_UINT).2 h).2⟩,
   ⟨(_uadv_spec buf v NANOCBOR_SIZE_WORD NANOCBOR_TYPE_UINT).1,
     fun h => ((_uadv_spec buf v NANOCBOR_SIZE_WORD NANOCBOR_TYPE_UINT).2 h).2⟩,
   ⟨(_iadv_spec buf v NANOCBOR_SIZE_BYTE 127).1,
     fun h => ((_iadv_spec buf v NANOCBOR_SIZE_BYTE 127).2 h).2⟩,
   ⟨(_iadv_spec buf v NANOCBOR_SIZE_SHORT 32767).1,
     fun h => ((_iadv_spec buf v NANOCBOR_SIZE_SHORT 32767).2 h).2⟩,
   ⟨(_iadv_spec buf v NANOCBOR_SIZE_WORD 2147483647).1,
     fun h => ((_iadv_spec buf v NANOCBOR_SIZE_WORD 2147483647).2 h).2⟩,
   ⟨(_get_tag_spec buf v).1, fun h => ((_get_tag_spec buf v).2 h).2.1⟩,
   ⟨(_get_str_spec buf v NANOCBOR_TYPE_BSTR).1,
     fun h => ((_get_str_spec buf v NANOCBOR_TYPE_BSTR).2 h).2⟩,
   ⟨(_get_str_spec buf v NANOCBOR_TYPE_TSTR).1,
     fun h => ((_get_str_spec buf v NANOCBOR_TYPE_TSTR).2 h).2⟩,
   ⟨(_value_match_exact_spec buf v _).1,
     fun h => ((_value_match_exact_spec buf v _).2 h).2⟩,
   ⟨(_get_bool_spec buf v).1, fun h => ((_get_bool_spec buf v).2 h).2⟩⟩

/-- Witness for C4 at `[0x01]`: the unsigned-8 read succeeds and lands one
byte further. -/
theorem claim_C4_witness :
    (nanocbor_get_uint8 [0x01] (nanocbor_decoder_init 1 0)).2.1.cur =
      0 + _item_size [0x01] 0 :=
  (claim_C4 [0x01] (nanocbor_decoder_init 1 0)).1.2 (by decide)

theorem nanocbor_at_end_top (buf : List Nat) (v : nanocbor_value_t)
    (hf : v.flags = 0) (hc : v.cur < v.end_) : nanocbor_at_end buf v = false := by
  simp [nanocbor_at_end, _over_end, nanocbor_container_indefinite, nanocbor_in_container,
    hf, NANOCBOR_DECODER_FLAG_CONTAINER, NANOCBOR_DECODER_FLAG_INDEFINITE]
  omega

theorem nanocbor_get_type_top (buf : List Nat) (v : nanocbor_value_t)
    (hf : v.flags = 0) (hc : v.cur < v.end_) :
    nanocbor_get_type buf v =
      (((byteAt buf v.cur &&& NANOCBOR_TYPE_MASK) >>> NANOCBOR_TYPE_OFFSET : Nat) : Int) := by
  unfold nanocbor_get_type
  rw [nanocbor_at_end_top buf v hf hc]
  simp

/-- C3: for every in-bounds top-level cursor, the variable-length integer
reader `_get_uint64` with required major type `t` and maximum-width selector
`max` (24/25/26/27 standing for maximum trailing widths 1/2/4/8 bytes):
fails with InvalidType when the header's major type differs from `t`; yields
the selector and 1 consumed byte when the selector is below 24; fails with
Overflow when the implied trailing-byte count `2^(sel-24)` exceeds the
maximum width `2^(max-24)`; fails with EndOfBuffer when the trailing bytes
would extend past `end`; and otherwise yields the big-endian value of the
trailing bytes with `1 + 2^(sel-24)` consumed bytes.  The cursor itself is
passed by `const` pointer and the model returns no state: the cursor is
unchanged in every case. -/
theorem claim_C3 (buf : List Nat) (v : nanocbor_value_t) (max : Nat) (t : Int)
    (hf : v.flags = 0) (hc : v.cur < v.end_) (hmax : 24 ≤ max ∧ max ≤ 27) :
    ((((byteAt buf v.cur &&& 0xE0) >>> 5 : Nat) : Int) ≠ t →
        _get_uint64 buf v max t = (NANOCBOR_ERR_INVALID_TYPE, 0)) ∧
    ((((byteAt buf v.cur &&& 0xE0) >>> 5 : Nat) : Int) = t →
      ((byteAt buf v.cur &&& 31) < 24 →
        _get_uint64 buf v max t = (1, byteAt buf v.cur &&& 31)) ∧
      (24 ≤ (byteAt buf v.cur &&& 31) →
        2 ^ (max - 24) < 2 ^ ((byteAt buf v.cur &&& 31) - 24) →
        _get_uint64 buf v max t = (NANOCBOR_ERR_OVERFLOW, 0)) ∧
      (24 ≤ (byteAt buf v.cur &&& 31) →
        2 ^ ((byteAt buf v.cur &&& 31) - 24) ≤ 2 ^ (max - 24) →
        v.end_ ≤ v.cur + 2 ^ ((byteAt buf v.cur &&& 31) - 24) →
        _get_uint64 buf v max t = (NANOCBOR_ERR_END, 0)) ∧
      (24 ≤ (byteAt buf v.cur &&& 31) →
        2 ^ ((byteAt buf v.cur &&& 31) - 24) ≤ 2 ^ (max - 24) →
        v.cur + 2 ^ ((byteAt buf v.cur &&& 31) - 24) < v.end_ →
        _get_uint64 buf v max t =
          (((1 + 2 ^ ((byteAt buf v.cur &&& 31) - 24) : Nat) : Int),
            beBytesToNat buf (v.cur + 1) (2 ^ ((byteAt buf v.cur &&& 31) - 24))))) := by
  have hty := nanocbor_get_type_top buf v hf hc
  unfold _get_uint64
  rw [hty]
  simp only [NANOCBOR_TYPE_MASK, NANOCBOR_TYPE_OFFSET, NANOCBOR_VALUE_MASK, NANOCBOR_SIZE_BYTE]
  rw [if_neg (not_lt.mpr (Int.natCast_nonneg _))]
  constructor
  · intro hne
    rw [if_pos (fun hh => hne hh.symm)]
  · intro heq
    rw [if_neg (fun hh => hh heq.symm)]
    simp only [Nat.shiftLeft_eq, one_mul]
    generalize byteAt buf v.cur &&& 31 = s
    refine ⟨fun hlt => by rw [if_pos hlt], fun hge hov => ?_, fun hge hle hend => ?_,
      fun hge hle hok => ?_⟩
    · have hmx : max < s := by
        have h2 := (Nat.pow_lt_pow_iff_right (by omega : (1:Nat) < 2)).mp hov
        omega
      rw [if_neg (by omega), if_pos hmx]
    · have hmx : ¬ max < s := by
        have h2 := (Nat.pow_le_pow_iff_right (by omega : (1:Nat) < 2)).mp hle
        omega
      rw [if_neg (by omega), if_neg hmx, if_pos hend]
    · have hmx : ¬ max < s := by
        have h2 := (Nat.pow_le_pow_iff_right (by omega : (1:Nat) < 2)).mp hle
        omega
      rw [if_neg (by omega), if_neg hmx, if_neg (by omega)]


/-- Witness for C3: `[0x18, 0x2A]` (unsigned, selector 24, one trailing byte)
decodes to value 42 with 2 bytes consumed. -/
theorem claim_C3_witness :
    _get_uint64 [0x18, 0x2A] (nanocbor_decoder_init 2 0) 24 0 =
      (((1 + 2 ^ ((byteAt [0x18, 0x2A] 0 &&& 31) - 24) : Nat) : Int),
        beBytesToNat [0x18, 0x2A] (0 + 1) (2 ^ ((byteAt [0x18, 0x2A] 0 &&& 31) - 24))) :=
  ((claim_C3 [0x18, 0x2A] (nanocbor_decoder_init 2 0) 24 0 rfl (by decide)
      (by decide)).2 (by decide)).2.2.2 (by decide) (by decide) (by decide)

/-- C6: for every signed read (the shared reader `_get_and_advance_int32`,
which the public 8/16/32-bit readers instantiate with
(max, bound) = (24, 127) / (25, 32767) / (26, 2147483647)): an item of the
negative-integer major type yields `-(magnitude) - 1` where magnitude is the
decoded unsigned payload, an item of the unsigned-integer major type yields
the magnitude as-is, and the read fails with Overflow (cursor unchanged)
whenever the magnitude exceeds the destination width's INT_MAX (`bound`); in
particular the single byte `0x20` read as signed-8 succeeds and yields `-1`. -/
theorem claim_C6 (buf : List Nat) (v : nanocbor_value_t) (max bound : Nat)
    (hf : v.flags = 0) (hc : v.cur < v.end_) :
    ((byteAt buf v.cur &&& 0xE0) >>> 5 = 1 →
      0 ≤ (_get_uint64 buf v max 1).1 →
      (_get_uint64 buf v max 1).2 ≤ bound →
      (_get_and_advance_int32 buf v max bound).1 = (_get_uint64 buf v max 1).1 ∧
      (_get_and_advance_int32 buf v max bound).2.2 =
        -((_get_uint64 buf v max 1).2 : Int) - 1) ∧
    ((byteAt buf v.cur &&& 0xE0) >>> 5 = 0 →
      0 ≤ (_get_uint64 buf v max 0).1 →
      (_get_uint64 buf v max 0).2 ≤ bound →
      (_get_and_advance_int32 buf v max bound).1 = (_get_uint64 buf v max 0).1 ∧
      (_get_and_advance_int32 buf v max bound).2.2 =
        ((_get_uint64 buf v max 0).2 : Int)) ∧
    (∀ t : Int, nanocbor_get_type buf v = t → (t = 1 ∨ t = 0) →
      bound < (_get_uint64 buf v max t).2 →
      (_get_and_advance_int32 buf v max bound).1 = NANOCBOR_ERR_OVERFLOW ∧
      (_get_and_advance_int32 buf v max bound).2.1 = v) ∧
    (nanocbor_get_int8 [0x20] (nanocbor_decoder_init 1 0)).1 = 1 ∧
    (nanocbor_get_int8 [0x20] (nanocbor_decoder_init 1 0)).2.2 = -1 := by
  have hty := nanocbor_get_type_top buf v hf hc
  simp only [NANOCBOR_TYPE_MASK, NANOCBOR_TYPE_OFFSET] at hty
  refine ⟨?_, ?_, ?_, by decide, by decide⟩
  · intro hT h1 h2
    have ht1 : nanocbor_get_type buf v = 1 := by
      rw [hty, hT]
      simp
    unfold _get_and_advance_int32
    rw [ht1]
    dsimp only
    rw [if_neg (by decide), if_pos (by decide), if_neg (by omega), if_pos (by decide)]
    exact ⟨_advance_if_fst v _, rfl⟩
  · intro hT h1 h2
    have ht1 : nanocbor_get_type buf v = 0 := by
      rw [hty, hT]
      simp
    unfold _get_and_advance_int32
    rw [ht1]
    dsimp only
    rw [if_neg (by decide), if_pos (by decide), if_neg (by omega), if_neg (by decide)]
    exact ⟨_advance_if_fst v _, rfl⟩
  · intro t ht1 hval hb
    unfold _get_and_advance_int32
    rw [ht1]
    dsimp only
    rcases hval with h | h <;> subst h
    · rw [if_neg (by decide), if_pos (by decide), if_pos hb]
      exact ⟨_advance_if_fst v _, _advance_if_neg v _ (by decide)⟩
    · rw [if_neg (by decide), if_pos (by decide), if_pos hb]
      exact ⟨_advance_if_fst v _, _advance_if_neg v _ (by decide)⟩

/-- C9: entering a definite-length map (header byte not the indefinite
marker `0xBF`, length decode successful) sets the child cursor's `remaining`
to exactly twice the decoded pair count, and fails with Overflow whenever the
decoded count exceeds `UINT32_MAX / 2 = 2147483647` (doubling would wrap the
32-bit counter). -/
theorem claim_C9 (buf : List Nat) (it : nanocbor_value_t)
    (hnotindef : byteAt buf it.cur ≠ 0xBF)
    (hdec : 0 ≤ (_get_uint64 buf it NANOCBOR_SIZE_WORD NANOCBOR_TYPE_MAP).1) :
    ((_get_uint64 buf it NANOCBOR_SIZE_WORD NANOCBOR_TYPE_MAP).2 ≤ 2147483647 →
      (nanocbor_enter_map buf it).1 = NANOCBOR_OK ∧
      (nanocbor_enter_map buf it).2.remaining =
        2 * (_get_uint64 buf it NANOCBOR_SIZE_WORD NANOCBOR_TYPE_MAP).2) ∧
    (2147483647 < (_get_uint64 buf it NANOCBOR_SIZE_WORD NANOCBOR_TYPE_MAP).2 →
      (nanocbor_enter_map buf it).1 = NANOCBOR_ERR_OVERFLOW) := by
  have hbf : NANOCBOR_TYPE_MAP.toNat <<< NANOCBOR_TYPE_OFFSET ||| NANOCBOR_SIZE_INDEFINITE =
      0xBF := by decide
  have hec : _enter_container buf it NANOCBOR_TYPE_MAP =
      (NANOCBOR_OK,
        ⟨it.cur + (_get_uint64 buf it NANOCBOR_SIZE_WORD NANOCBOR_TYPE_MAP).1.toNat, it.end_,
          (_get_uint64 buf it NANOCBOR_SIZE_WORD NANOCBOR_TYPE_MAP).2,
          NANOCBOR_DECODER_FLAG_CONTAINER⟩) := by
    unfold _enter_container
    dsimp only
    rw [if_neg (fun hA => hnotindef (hbf ▸ hA.2)), if_neg (by omega)]
  unfold nanocbor_enter_map
  rw [hec]
  dsimp only
  constructor
  · intro hle
    rw [if_neg (by omega)]
    exact ⟨rfl, by dsimp only; omega⟩
  · intro hgt
    rw [if_pos (by omega)]

/-- C10 counterexample: `_advance` decrements `remaining` even for a cursor
that is not scoped to any container (flags = 0, so the claim requires
`remaining` unchanged: 5 becomes 4, not 5), and a successful
`nanocbor_get_tag` inside a definite-length container (flags = 1,
remaining = 3) leaves `remaining` at 3 instead of decrementing it to 2. -/
theorem claim_C10_counterexample :
    ((_advance ⟨0, 10, 5, 0⟩ 1).remaining ≠ 5 ∧
      nanocbor_in_container ⟨0, 10, 5, 0⟩ = false) ∧
    ((nanocbor_get_tag [0xC4, 0x00] ⟨0, 2, 3, 1⟩).1 = NANOCBOR_OK ∧
      nanocbor_in_container ⟨0, 2, 3, 1⟩ = true ∧
      nanocbor_container_indefinite ⟨0, 2, 3, 1⟩ = false ∧
      (nanocbor_get_tag [0xC4, 0x00] ⟨0, 2, 3, 1⟩).2.1.remaining ≠ 2) := by
  decide

/-- C10 (amended): the cursor advance operation moves `cur` forward by the
given byte count and decrements the 32-bit `remaining` counter
unconditionally (modulo 2^32), regardless of whether the cursor is scoped to
a definite-length container — the field is simply never consulted outside
definite containers; and a successful get-tag advances `cur` by the tag's
header-plus-trailing size without touching `remaining` at all. -/
theorem claim_C10 (v : nanocbor_value_t) (n : Nat) :
    ((_advance v n).cur = v.cur + n ∧
      (_advance v n).remaining = (v.remaining + (U32 - 1)) % U32 ∧
      (_advance v n).end_ = v.end_ ∧ (_advance v n).flags = v.flags) ∧
    (∀ buf, 0 ≤ (nanocbor_get_tag buf v).1 →
      (nanocbor_get_tag buf v).2.1.cur = v.cur + _item_size buf v.cur ∧
      (nanocbor_get_tag buf v).2.1.remaining = v.remaining) :=
  ⟨⟨rfl, rfl, rfl, rfl⟩,
    fun buf h => ⟨((_get_tag_spec buf v).2 h).2.1, ((_get_tag_spec buf v).2 h).2.2.1⟩⟩

/-- Witness for C10 at concrete cursors. -/
theorem claim_C10_witness :
    (_advance ⟨0, 10, 5, 0⟩ 1).cur = 0 + 1 ∧
    (nanocbor_get_tag [0xC4, 0x00] ⟨0, 2, 3, 1⟩).2.1.remaining = 3 :=
  ⟨(claim_C10 ⟨0, 10, 5, 0⟩ 1).1.1,
    ((claim_C10 ⟨0, 2, 3, 1⟩ 1).2 [0xC4, 0x00] (by decide)).2⟩


/-- Witness for C6: the byte `0x20` through the shared signed reader with the
signed-8 parameters. -/
theorem claim_C6_witness :
    (_get_and_advance_int32 [0x20] (nanocbor_decoder_init 1 0) 24 127).1 =
      (_get_uint64 [0x20] (nanocbor_decoder_init 1 0) 24 1).1 ∧
    (_get_and_advance_int32 [0x20] (nanocbor_decoder_init 1 0) 24 127).2.2 =
      -((_get_uint64 [0x20] (nanocbor_decoder_init 1 0) 24 1).2 : Int) - 1 :=
  (claim_C6 [0x20] (nanocbor_decoder_init 1 0) 24 127 rfl (by decide)).1
    (by decide) (by decide) (by decide)

/-- Witness for C9: the map `{0: 0}` (`[0xA1, 0x00, 0x00]`) enters with
`remaining = 2`; a map claiming `2^31` pairs fails with Overflow. -/
theorem claim_C9_witness :
    ((nanocbor_enter_map [0xA1, 0x00, 0x00] (nanocbor_decoder_init 3 0)).1 = NANOCBOR_OK ∧
      (nanocbor_enter_map [0xA1, 0x00, 0x00] (nanocbor_decoder_init 3 0)).2.remaining =
        2 * (_get_uint64 [0xA1, 0x00, 0x00] (nanocbor_decoder_init 3 0) NANOCBOR_SIZE_WORD
          NANOCBOR_TYPE_MAP).2) ∧
    (nanocbor_enter_map [0xBA, 0x80, 0x00, 0x00, 0x00, 0x00]
        (nanocbor_decoder_init 6 0)).1 = NANOCBOR_ERR_OVERFLOW :=
  ⟨(claim_C9 [0xA1, 0x00, 0x00] (nanocbor_decoder_init 3 0) (by decide)
      (by decide)).1 (by decide),
   (claim_C9 [0xBA, 0x80, 0x00, 0x00, 0x00, 0x00] (nanocbor_decoder_init 6 0)
      (by decide) (by decide)).2 (by decide)⟩

/-- C1 (code-bug evidence): the one-byte buffer `[0x41]` is a byte-string
header claiming 1 content byte with 0 bytes remaining after the header — a
buffer truncated mid-item.  The claim (and §8 of the spec) demands
EndOfBuffer with no byte outside `[cur, end)` read; the code instead returns
`NANOCBOR_OK`, hands back the view (offset 1, length 1) which lies entirely
outside the 1-byte buffer, and leaves `cur = 2` past `end = 1`: the bounds
check `end - cur >= length` of `_get_str` fails to count the header bytes
that are still under `cur` at check time. -/
theorem claim_C1 :
    (nanocbor_get_bstr [0x41] (nanocbor_decoder_init 1 0)).1 = NANOCBOR_OK ∧
    (nanocbor_get_bstr [0x41] (nanocbor_decoder_init 1 0)).2.1.cur = 2 ∧
    (nanocbor_get_bstr [0x41] (nanocbor_decoder_init 1 0)).2.1.end_ = 1 ∧
    (nanocbor_get_bstr [0x41] (nanocbor_decoder_init 1 0)).2.2.1 = 1 ∧
    (nanocbor_get_bstr [0x41] (nanocbor_decoder_init 1 0)).2.2.2 = 1 := by
  decide

/-- C2 (code-bug evidence): skipping the one-byte buffer `[0x9F]` (an
indefinite-array header with no break marker) returns `NANOCBOR_OK` and a
caller-visible cursor with `cur = 2 > end = 1`: `nanocbor_leave_container`
unconditionally steps past a break byte that is not there, violating the
`cur <= end` invariant at a stable observation point. -/
theorem claim_C2 :
    (nanocbor_skip [0x9F] (nanocbor_decoder_init 1 0)).1 = NANOCBOR_OK ∧
    (nanocbor_skip [0x9F] (nanocbor_decoder_init 1 0)).2.cur = 2 ∧
    (nanocbor_skip [0x9F] (nanocbor_decoder_init 1 0)).2.end_ = 1 := by
  decide

/-- Nested definite arrays: `nestArr d` is `d` nested arrays with the
innermost one empty — `0x81` repeated `d - 1` times followed by `0x80`. -/
def nestArr : Nat → List Nat
  | 0 => []
  | 1 => [0x80]
  | d + 2 => 0x81 :: nestArr (d + 1)

set_option maxRecDepth 100000 in
/-- C7: the generic skip with the configured recursion budget
(`NANOCBOR_RECURSION_MAX`) succeeds on an array nested to depth exactly the
limit and fails with RecursionLimitExceeded on the same structure nested one
level deeper. -/
theorem claim_C7 :
    nanocbor_skip (nestArr NANOCBOR_RECURSION_MAX)
        (nanocbor_decoder_init NANOCBOR_RECURSION_MAX 0) =
      (NANOCBOR_OK, ⟨NANOCBOR_RECURSION_MAX, NANOCBOR_RECURSION_MAX, 0, 0⟩) ∧
    (nanocbor_skip (nestArr (NANOCBOR_RECURSION_MAX + 1))
        (nanocbor_decoder_init (NANOCBOR_RECURSION_MAX + 1) 0)).1 =
      NANOCBOR_ERR_RECURSION := by
  decide

/-- C8 (code-bug evidence): on the map `{"a": 1}`
(`[0xA1, 0x61, 0x61, 0x01]`) the lookup of the present key `"a"` behaves as
claimed (success, cursor on the value item, whose unsigned-8 read yields 1),
but the lookup of the absent key `"b"` returns `NANOCBOR_OK` instead of
NotFound: the loop exits through its `at_end` condition carrying the
`NANOCBOR_OK` of the last successful skip, so only an initially-empty map
ever reports NotFound. -/
theorem claim_C8 :
    (nanocbor_enter_map [0xA1, 0x61, 0x61, 0x01] (nanocbor_decoder_init 4 0)).1 =
      NANOCBOR_OK ∧
    (nanocbor_get_key_tstr [0xA1, 0x61, 0x61, 0x01]
        (nanocbor_enter_map [0xA1, 0x61, 0x61, 0x01] (nanocbor_decoder_init 4 0)).2
        [0x61]).1 = NANOCBOR_OK ∧
    (nanocbor_get_uint8 [0xA1, 0x61, 0x61, 0x01]
        (nanocbor_get_key_tstr [0xA1, 0x61, 0x61, 0x01]
          (nanocbor_enter_map [0xA1, 0x61, 0x61, 0x01] (nanocbor_decoder_init 4 0)).2
          [0x61]).2).2.2 = 1 ∧
    (nanocbor_get_key_tstr [0xA1, 0x61, 0x61, 0x01]
        (nanocbor_enter_map [0xA1, 0x61, 0x61, 0x01] (nanocbor_decoder_init 4 0)).2
        [0x62]).1 = NANOCBOR_OK ∧
    NANOCBOR_OK ≠ NANOCBOR_NOT_FOUND := by
  decide

end NanoCBOR
